import Mathlib

/-!
Shallow embedding of the sems-client repository (sems-client.py,
sems_utils.py, backup-loader.py).

JSON documents are modelled by an inductive type; Python floats are
modelled by exact decimal values (an integer mantissa over a power of
ten: the inputs exercised here are small decimal strings, on which
binary floats are exact or truncate identically); Python exceptions are
modelled by the Except monad.  The jmespath query language is embedded
for the dotted field / single-index subset actually used by the METRICS
table (any other path shape yields null, which the fixed paths of this
repository never hit).  String scanning is implemented over character
lists so that every definition evaluates inside the kernel.
-/

/-- An exact decimal number num / 10 ^ dexp, the model of a Python float
produced by float() on a decimal literal. -/
structure PyF where
  num : Int
  dexp : Nat
deriving DecidableEq

/-- A JSON-like value as produced by json.loads: Python None, bool, int,
float, str, list and dict. -/
inductive Json where
  | null : Json
  | bool (b : Bool) : Json
  | int (n : Int) : Json
  | float (f : PyF) : Json
  | str (s : String) : Json
  | arr (xs : List Json) : Json
  | obj (kvs : List (String × Json)) : Json

/-- The Python exception kinds that the embedded code can raise. -/
inductive PyErr where
  | typeError : PyErr
  | valueError : PyErr
  | attributeError : PyErr
deriving DecidableEq

/-- A Python dict with string keys, in insertion order. -/
abbrev Record := List (String × Json)

/-- Python truthiness of a JSON value (bool(v)). -/
def pyFalsy : Json → Bool
  | .null => true
  | .bool b => !b
  | .int n => decide (n = 0)
  | .float f => decide (f.num = 0)
  | .str s => decide (s = "")
  | .arr xs => xs.isEmpty
  | .obj kvs => kvs.isEmpty

/-- Dict assignment out[k] = v: replace in place if present, else append. -/
def setKey : Record → String → Json → Record
  | [], k, v => [(k, v)]
  | (k2, v2) :: rest, k, v =>
      if k2 = k then (k, v) :: rest else (k2, v2) :: setKey rest k v

/-- Dict deletion del out[k] (dict keys are unique, so removing every
occurrence is the same as removing the one occurrence). -/
def delKey : Record → String → Record
  | [], _ => []
  | (k2, v) :: rest, k =>
      if k2 = k then delKey rest k else (k2, v) :: delKey rest k

/-- Dict lookup out.get(k). -/
def getKey : Record → String → Option Json
  | [], _ => none
  | (k2, v) :: rest, k => if k2 = k then some v else getKey rest k

/-- Numeric value of a digit string. -/
def digitsVal (cs : List Char) : Nat :=
  cs.foldl (fun a c => a * 10 + (c.toNat - 48)) 0

/-- List prefix test, the engine of the string scans below. -/
def isPreL : List Char → List Char → Bool
  | [], _ => true
  | _ :: _, [] => false
  | c :: cs, d :: ds => c = d && isPreL cs ds

/-- Python str.startswith. -/
def pyStartsWith (s pre : String) : Bool := isPreL pre.data s.data

/-- Python str.endswith. -/
def pyEndsWith (s suf : String) : Bool :=
  isPreL suf.data.reverse s.data.reverse

/-- Python s[:-n], dropping the last n characters. -/
def pyDropRight (s : String) (n : Nat) : String :=
  .mk (s.data.reverse.drop n).reverse

/-- Split a character list on a separator character. -/
def splitOnCL (sep : Char) : List Char → List Char → List (List Char)
  | [], acc => [acc.reverse]
  | c :: rest, acc =>
      if c = sep then acc.reverse :: splitOnCL sep rest []
      else splitOnCL sep rest (c :: acc)

/-- Split a string on a single-character separator (every separator used
by this embedding is a single character). -/
def splitOnC (sep : Char) (s : String) : List String :=
  (splitOnCL sep s.data []).map .mk

/-- Concatenate a list of strings. -/
def joinStr (ss : List String) : String :=
  .mk (ss.map String.data).flatten

/-- One step of a parsed jmespath expression. -/
inductive Seg where
  | field (name : String) : Seg
  | index (i : Nat) : Seg

/-- Parse one dotted component, either `name` or `name[i]`. -/
def parseSeg (s : String) : Option (List Seg) :=
  match splitOnC '[' s with
  | [n] => if n = "" then none else some [.field n]
  | [n, idx] =>
      if n = "" then none
      else if pyEndsWith idx "]" then
        let ds := (pyDropRight idx 1).data
        if ds ≠ [] ∧ ds.all Char.isDigit then some [.field n, .index (digitsVal ds)]
        else none
      else none
  | _ => none

/-- Parse a dotted jmespath expression of the subset used by METRICS. -/
def parsePath (p : String) : Option (List Seg) := do
  let parts ← (splitOnC '.' p).mapM parseSeg
  return parts.flatten

/-- Evaluate parsed path segments; a field or index applied to a value of
the wrong shape yields null, as jmespath returns None there. -/
def jsearchSegs : List Seg → Json → Json
  | [], v => v
  | .field n :: rest, .obj kvs => jsearchSegs rest ((kvs.lookup n).getD .null)
  | .field _ :: _, _ => .null
  | .index i :: rest, .arr xs => jsearchSegs rest (xs.getD i .null)
  | .index _ :: _, _ => .null

/-- jmespath.search for the path subset used by this repository; a
missing value is null (Python None). -/
def jsearch (p : String) (doc : Json) : Json :=
  match parsePath p with
  | some segs => jsearchSegs segs doc
  | none => .null

/-- Python string whitespace. -/
def isWsChar (c : Char) : Bool :=
  c == ' ' || c == '\t' || c == '\n' || c == '\r'

/-- Strip whitespace from both ends of a character list. -/
def trimL (cs : List Char) : List Char :=
  ((cs.dropWhile isWsChar).reverse.dropWhile isWsChar).reverse

/-- Build the decimal sign * (ip . fp) * 10 ^ e as an exact PyF. -/
def mkPyF (sign : Int) (ip fp : Nat) (fLen : Nat) (e : Int) : PyF :=
  let mant : Int := sign * ((ip : Int) * (10 : Int) ^ fLen + (fp : Int))
  let tot : Int := e - (fLen : Int)
  if 0 ≤ tot then ⟨mant * (10 : Int) ^ tot.toNat, 0⟩
  else ⟨mant, (-tot).toNat⟩

/-- Python float(s) on the decimal subset (optional sign, digits with an
optional point, optional exponent); nan and inf are outside the subset,
and every input this repository feeds here is plain decimal. -/
def pyFloat (s : String) : Option PyF :=
  let cs := trimL s.data
  let signAndRest : Int × List Char :=
    match cs with
    | '+' :: r => (1, r)
    | '-' :: r => (-1, r)
    | r => (1, r)
  let sign := signAndRest.1
  let rest := signAndRest.2
  let mantExp := rest.span (fun c => c != 'e' && c != 'E')
  let mant := mantExp.1
  let expPart : Option Int :=
    match mantExp.2 with
    | [] => some 0
    | _ :: ecs =>
        let esr : Int × List Char :=
          match ecs with
          | '+' :: r => (1, r)
          | '-' :: r => (-1, r)
          | r => (1, r)
        if esr.2 ≠ [] ∧ esr.2.all Char.isDigit then
          some (esr.1 * (digitsVal esr.2 : Int))
        else none
  let mantVal : Option (Nat × Nat × Nat) :=
    let ipFp := mant.span Char.isDigit
    match ipFp.2 with
    | [] => if ipFp.1 = [] then none else some (digitsVal ipFp.1, 0, 0)
    | '.' :: fp =>
        if fp.all Char.isDigit ∧ (ipFp.1 ≠ [] ∨ fp ≠ []) then
          some (digitsVal ipFp.1, digitsVal fp, fp.length)
        else none
    | _ => none
  match mantVal, expPart with
  | some (ip, fp, fLen), some e => some (mkPyF sign ip fp fLen e)
  | _, _ => none

/-- Python int(x) on a float: truncation toward zero. -/
def pyTrunc (f : PyF) : Int := f.num.tdiv ((10 : Int) ^ f.dexp)

/-- Python string repetition n * s (non-positive n gives the empty string). -/
def strRepeat (n : Int) (s : String) : String :=
  joinStr (List.replicate n.toNat s)

/-- Python multiplication int * v for a JSON value v: int, float and bool
multiply numerically, str and list repeat, None and dict raise TypeError. -/
def pyMulInt (n : Int) : Json → Except PyErr Json
  | .int m => .ok (.int (n * m))
  | .bool b => .ok (.int (n * (if b then 1 else 0)))
  | .float f => .ok (.float ⟨n * f.num, f.dexp⟩)
  | .str s => .ok (.str (strRepeat n s))
  | .arr xs => .ok (.arr (List.replicate n.toNat xs).flatten)
  | .null => .error .typeError
  | .obj _ => .error .typeError

/-- Python multiplication float * v: numeric operands give a float,
anything else raises TypeError. -/
def pyMulFloat (f : PyF) : Json → Except PyErr Json
  | .int m => .ok (.float ⟨f.num * m, f.dexp⟩)
  | .float g => .ok (.float ⟨f.num * g.num, f.dexp + g.dexp⟩)
  | .bool b => .ok (.float ⟨f.num * (if b then 1 else 0), f.dexp⟩)
  | _ => .error .typeError

/-- A naive local wall-clock date-time, as produced by strptime. -/
structure Civil where
  y : Nat
  m : Nat
  d : Nat
  hh : Nat
  mi : Nat
  ss : Nat
deriving DecidableEq

/-- Gregorian leap year. -/
def isLeap (y : Nat) : Bool :=
  y % 4 = 0 && (y % 100 ≠ 0 || y % 400 = 0)

/-- Days in a month, as validated by strptime when building a datetime. -/
def daysInMonth (y m : Nat) : Nat :=
  if m = 2 then (if isLeap y then 29 else 28)
  else if m = 4 ∨ m = 6 ∨ m = 9 ∨ m = 11 then 30
  else 31

/-- Parse a bounded-width digit field of strptime. -/
def parseNatField (s : String) (minLen maxLen : Nat) : Option Nat :=
  let cs := s.data
  if minLen ≤ cs.length ∧ cs.length ≤ maxLen ∧ cs.all Char.isDigit ∧ cs ≠ [] then
    some (digitsVal cs)
  else none

/-- datetime.strptime(s, m/d/Y H:M:S format): split the string, read the
digit fields, and validate the calendar ranges datetime enforces. -/
def strptimeMDY (s : String) : Option Civil :=
  match splitOnC ' ' s with
  | [ds, ts] =>
      match splitOnC '/' ds with
      | [ms, dds, ys] =>
          match splitOnC ':' ts with
          | [hs, mis, ss] => do
              let m ← parseNatField ms 1 2
              let d ← parseNatField dds 1 2
              let y ← parseNatField ys 4 4
              let h ← parseNatField hs 1 2
              let mi ← parseNatField mis 1 2
              let sec ← parseNatField ss 1 2
              if 1 ≤ m ∧ m ≤ 12 ∧ 1 ≤ d ∧ d ≤ daysInMonth y m ∧
                  h ≤ 23 ∧ mi ≤ 59 ∧ sec ≤ 59 then
                some ⟨y, m, d, h, mi, sec⟩
              else none
          | _ => none
      | _ => none
  | _ => none

/-- Days from 1970-01-01 to the given civil date (Julian-day formula). -/
def epochDays (y m d : Int) : Int :=
  let a := (14 - m).fdiv 12
  let y2 := y + 4800 - a
  let m2 := m + 12 * a - 3
  d + (153 * m2 + 2).fdiv 5 + 365 * y2 + y2.fdiv 4 - y2.fdiv 100 + y2.fdiv 400
    - 32045 - 2440588

/-- Seconds from the epoch to a civil date-time read as UTC. -/
def civilSecs (c : Civil) : Int :=
  epochDays (c.y : Int) (c.m : Int) (c.d : Int) * 86400 +
    (c.hh : Int) * 3600 + (c.mi : Int) * 60 + (c.ss : Int)

/-- The timestamp computation of both parse_data variants:
jmespath.search of info.time, strptime, then datetime.timestamp() of the
naive value under the local utc offset tz (seconds east), truncated to
int.  A non-string info.time raises TypeError in strptime; a malformed
string raises ValueError. -/
def timestampOf (tz : Int) (doc : Json) : Except PyErr Int :=
  match jsearch "info.time" doc with
  | .str s =>
      match strptimeMDY s with
      | some c => .ok (civilSecs c - tz)
      | none => .error .valueError
  | _ => .error .typeError

/-- The METRICS table of sems_utils.py, in source order. -/
def METRICS : List (String × String) :=
  [("d_pv_sum", "energeStatisticsCharts.sum"),
   ("d_pv_use", "energeStatisticsCharts.selfUseOfPv"),
   ("d_sell", "energeStatisticsCharts.sell"),
   ("d_buy", "energeStatisticsCharts.buy"),
   ("d_use", "energeStatisticsCharts.consumptionOfLoad"),
   ("p_pv", "powerflow.pv"),
   ("p_load", "powerflow.load"),
   ("p_grid", "powerflow.grid"),
   ("vdc1", "inverter[0].d.vpv1"),
   ("vdc2", "inverter[0].d.vpv2"),
   ("vdc3", "inverter[0].d.vpv3"),
   ("idc1", "inverter[0].d.ipv1"),
   ("idc2", "inverter[0].d.ipv2"),
   ("idc3", "inverter[0].d.ipv3"),
   ("vac", "inverter[0].d.vac1"),
   ("iac", "inverter[0].d.iac1"),
   ("fac", "inverter[0].d.fac1"),
   ("pac", "inverter[0].d.pac")]

/-- The trailing type check of sems_utils.parse_data: an int value is
kept, any other value is warned about and deleted. -/
def typeCheckOut (w : Json) : Option Json :=
  match w with
  | .int _ => some w
  | _ => none

/-- The net effect on one field of one iteration of the loop of
sems_utils.parse_data: some w means the key ends the iteration bound to
w, none means the key ends deleted.  The body assigns out_data[key]
several times and never reads any other key, so its effect on the dict
is exactly this final outcome applied to the key.  For powerflow paths:
a falsy value is deleted; a truthy non-string raises AttributeError at
endswith; a (W) string is stripped and parsed with int(float(..)),
raising ValueError when unparsable; a magnitude below 10 is clamped to 0
skipping the rest; powerflow.grid is multiplied by loadStatus (raising
TypeError when that is missing); finally a non-int result is warned
about and deleted. -/
def replayOut (doc : Json) (p : String) : Except PyErr (Option Json) :=
  if pyStartsWith p "powerflow" then
    if pyFalsy (jsearch p doc) then .ok none
    else
      match jsearch p doc with
      | .str s =>
          if pyEndsWith s "(W)" then
            match pyFloat (pyDropRight s 3) with
            | none => .error .valueError
            | some q =>
                if (pyTrunc q).natAbs < 10 then .ok (some (.int 0))
                else if p = "powerflow.grid" then
                  match pyMulInt (pyTrunc q) (jsearch "powerflow.loadStatus" doc) with
                  | .error e => .error e
                  | .ok w => .ok (typeCheckOut w)
                else .ok (typeCheckOut (.int (pyTrunc q)))
          else .ok (typeCheckOut (.str s))
      | _ => .error .attributeError
  else .ok (some (jsearch p doc))

/-- One iteration of the loop of sems_utils.parse_data: out_data[key] is
first assigned the search result, then the body may rebind or delete it;
the dict ends with the key bound to the net outcome or absent. -/
def replayStep (doc : Json) (k p : String) (out : Record) : Except PyErr Record :=
  match replayOut doc p with
  | .error e => .error e
  | .ok (some w) => .ok (setKey out k w)
  | .ok none => .ok (delKey (setKey out k (jsearch p doc)) k)

/-- The net value of one field of one iteration of the loop of
SemsProcessor.parse_data.  For powerflow paths whose value is a (W)
string: look up the path++Status companion, negate it (raising TypeError
when it is missing), and multiply the float magnitude by it; a
non-string (or missing) powerflow value raises AttributeError at
endswith.  All other fields keep the search result. -/
def liveOut (doc : Json) (p : String) : Except PyErr Json :=
  if pyStartsWith p "powerflow" then
    match jsearch p doc with
    | .str s =>
        if pyEndsWith s "(W)" then
          match pyMulInt (-1) (jsearch (p ++ "Status") doc) with
          | .error e => .error e
          | .ok fd =>
              match pyFloat (pyDropRight s 3) with
              | none => .error .valueError
              | some q => pyMulFloat q fd
        else .ok (.str s)
    | _ => .error .attributeError
  else .ok (jsearch p doc)

/-- One iteration of the loop of SemsProcessor.parse_data: the key ends
bound to the net value; this loop never deletes a key. -/
def liveStep (doc : Json) (k p : String) (out : Record) : Except PyErr Record :=
  match liveOut doc p with
  | .error e => .error e
  | .ok w => .ok (setKey out k w)

/-- Run per-key steps over a metric spec in order; the first raised
exception aborts the whole call, as nothing catches it inside the loop. -/
def runSteps (step : String → String → Record → Except PyErr Record) :
    List (String × String) → Record → Except PyErr Record
  | [], out => .ok out
  | (k, p) :: rest, out =>
      match step k p out with
      | .error e => .error e
      | .ok out2 => runSteps step rest out2

namespace SemsUtils

/-- sems_utils.parse_data: timestamp first, then the METRICS loop. -/
def parse_data (tz : Int) (doc : Json) : Except PyErr (Int × Record) :=
  match timestampOf tz doc with
  | .error e => .error e
  | .ok t =>
      match runSteps (replayStep doc) METRICS [] with
      | .error e => .error e
      | .ok out => .ok (t, out)

end SemsUtils

namespace SemsProcessor

/-- SemsProcessor.parse_data of sems-client.py: the value loop first over
the configured spec, then the timestamp. -/
def parse_data (spec : List (String × String)) (tz : Int) (doc : Json) :
    Except PyErr (Int × Record) :=
  match runSteps (liveStep doc) spec [] with
  | .error e => .error e
  | .ok out =>
      match timestampOf tz doc with
      | .error e => .error e
      | .ok t => .ok (t, out)

end SemsProcessor

/-- Extract the payload of a successful parse (used only to state closed
instances; the error case never occurs where it is applied). -/
def unwrapOr (e : Except PyErr (Int × Record)) : Int × Record :=
  match e with
  | .ok p => p
  | .error _ => (0, [])

/-- Drop leading JSON whitespace. -/
def skipWs (cs : List Char) : List Char := cs.dropWhile isWsChar

/-- The opening brace character, by code point. -/
def lbrace : Char := Char.ofNat 123

/-- The closing brace character, by code point. -/
def rbrace : Char := Char.ofNat 125

/-- Read a JSON string body up to the closing quote (escape-free subset:
every line this repository captures or replays is plain text). -/
def parseJStr (acc : List Char) : List Char → Option (String × List Char)
  | [] => none
  | c :: rest =>
      if c = '"' then some (String.mk acc.reverse, rest)
      else if c = '\\' then none
      else parseJStr (c :: acc) rest

/-- Characters that may form a JSON number literal. -/
def isNumChar (c : Char) : Bool :=
  c.isDigit || c == '-' || c == '+' || c == '.' || c == 'e' || c == 'E'

/-- Read a JSON number: an integer literal becomes a Python int, a
literal with a point or exponent becomes a Python float, as json.loads
does. -/
def parseJNum (cs : List Char) : Option (Json × List Char) :=
  let numRest := cs.span isNumChar
  let num := numRest.1
  if num = [] then none
  else if num.any (fun c => c == '.' || c == 'e' || c == 'E') then
    match pyFloat (String.mk num) with
    | some q => some (.float q, numRest.2)
    | none => none
  else
    match num with
    | '-' :: ds => if ds ≠ [] ∧ ds.all Char.isDigit then
        some (.int (-(digitsVal ds : Int)), numRest.2) else none
    | ds => if ds ≠ [] ∧ ds.all Char.isDigit then
        some (.int (digitsVal ds : Int), numRest.2) else none

mutual

/-- Recursive-descent json.loads value parser, fuelled by input length. -/
def parseVal : Nat → List Char → Option (Json × List Char)
  | 0, _ => none
  | fuel + 1, cs =>
      match skipWs cs with
      | 'n' :: 'u' :: 'l' :: 'l' :: r => some (.null, r)
      | 't' :: 'r' :: 'u' :: 'e' :: r => some (.bool true, r)
      | 'f' :: 'a' :: 'l' :: 's' :: 'e' :: r => some (.bool false, r)
      | '"' :: r => (parseJStr [] r).map (fun p => (.str p.1, p.2))
      | c :: r =>
          if c = lbrace then
            match skipWs r with
            | c2 :: r2 =>
                if c2 = rbrace then some (.obj [], r2)
                else (parseObjItems fuel (c2 :: r2)).map (fun p => (.obj p.1, p.2))
            | [] => none
          else if c = '[' then
            match skipWs r with
            | ']' :: r2 => some (.arr [], r2)
            | r2 => (parseArrItems fuel r2).map (fun p => (.arr p.1, p.2))
          else parseJNum (c :: r)
      | [] => none

/-- One or more comma-separated array items up to the closing bracket. -/
def parseArrItems : Nat → List Char → Option (List Json × List Char)
  | 0, _ => none
  | fuel + 1, cs => do
      let (v, r) ← parseVal fuel cs
      match skipWs r with
      | ',' :: r2 => (parseArrItems fuel r2).map (fun p => (v :: p.1, p.2))
      | ']' :: r2 => some ([v], r2)
      | _ => none

/-- One or more comma-separated object members up to the closing brace. -/
def parseObjItems : Nat → List Char → Option (List (String × Json) × List Char)
  | 0, _ => none
  | fuel + 1, cs =>
      match skipWs cs with
      | '"' :: r => do
          let (k, r2) ← parseJStr [] r
          match skipWs r2 with
          | ':' :: r3 => do
              let (v, r4) ← parseVal fuel r3
              match skipWs r4 with
              | ',' :: r5 => (parseObjItems fuel r5).map (fun p => ((k, v) :: p.1, p.2))
              | c :: r5 => if c = rbrace then some ([(k, v)], r5) else none
              | [] => none
          | _ => none
      | _ => none

end

/-- json.loads: parse one document and require only whitespace after it;
any failure is the JSONDecodeError that json.loads raises (a ValueError). -/
def loads (s : String) : Except PyErr Json :=
  match parseVal (s.data.length + 1) s.data with
  | some (v, rest) => if skipWs rest = [] then .ok v else .error .valueError
  | none => .error .valueError

/-- An InfluxDB point as built by sems_utils.create_point: measurement,
epoch-second timestamp, and one field per record entry. -/
abbrev PointM := String × Int × Record

/-- sems_utils.create_point. -/
def create_point (meas : String) (t : Int) (out : Record) : PointM :=
  (meas, t, out)

namespace BackupLoader

/-- BackupLoader.load_data of backup-loader.py.  The try block wraps the
whole for loop, so the first line whose json.loads or parse_data raises
ends the call (the exception is logged), returning the count and sink
writes accumulated so far.  Falsy documents are skipped uncounted; in
dry-run mode records are counted but not written. -/
def load_data (dryRun : Bool) (meas : String) (tz : Int) :
    List String → Nat → List PointM → Nat × List PointM
  | [], n, w => (n, w)
  | line :: rest, n, w =>
      match loads line with
      | .error _ => (n, w)
      | .ok sems =>
          if pyFalsy sems then load_data dryRun meas tz rest n w
          else
            match SemsUtils.parse_data tz sems with
            | .error _ => (n, w)
            | .ok (t, out) =>
                if dryRun then load_data dryRun meas tz rest (n + 1) w
                else load_data dryRun meas tz rest (n + 1)
                  (w ++ [create_point meas t out])

end BackupLoader

/-- A network request made by SemsApi: the login POST or the data POST. -/
inductive NetCall where
  | login : NetCall
  | query : NetCall
deriving DecidableEq

/-- How getData can fail internally: the explicit OutOfRetries raise, the
raise inside login when getLoginToken returned None, and any
network/parse exception of the data request. -/
inductive GErr where
  | outOfRetries : GErr
  | loginFailed : GErr
  | transport : GErr
deriving DecidableEq

/-- Outcome of one data POST: an exception (network error or malformed
body), or a parsed JSON envelope with its msg field and data payload. -/
inductive QueryResp where
  | exn : QueryResp
  | json (msg : String) (data : Option Json) : QueryResp

/-- The mutable session state of SemsApi plus an observation trace of the
network calls issued. -/
structure ApiSt where
  token : Option String
  loginCount : Nat
  queryCount : Nat
  calls : List NetCall

/-- The remote behaviour: the result of the i-th getLoginToken call
(None models its internally-caught failure) and of the i-th data POST. -/
structure Env where
  loginResult : Nat → Option String
  queryResp : Nat → QueryResp

/-- Record a login POST and its resulting token. -/
def recordLogin (st : ApiSt) (r : Option String) : ApiSt :=
  { st with
    token := r
    loginCount := st.loginCount + 1
    calls := st.calls ++ [.login] }

/-- Record a data POST. -/
def recordQuery (st : ApiSt) : ApiSt :=
  { st with
    queryCount := st.queryCount + 1
    calls := st.calls ++ [.query] }

/-- The login step of getData: fetch a token when none is held or
renewal is forced; a None token raises inside login (modelled as
loginFailed). -/
def loginPhase (env : Env) (st : ApiSt) (renew : Bool) :
    Except GErr String × ApiSt :=
  if st.token.isNone || renew then
    match env.loginResult st.loginCount with
    | none => (.error .loginFailed, recordLogin st none)
    | some t => (.ok t, recordLogin st (some t))
  else (.ok (st.token.getD ""), st)

namespace SemsApi

/-- The try-block body of SemsApi.getData: abort with OutOfRetries when
maxTokenRetries has run out (before any network call), log in if needed,
issue the data POST, and on a non-success msg or null data recurse with
a forced re-login and maxTokenRetries - 1.  In the source the recursion
goes through the public getData, whose own handler catches and returns
None; propagating the inner error here is observationally the same,
since the outermost handler maps every error to None. -/
def getDataAux (env : Env) (st : ApiSt) (renew : Bool) (mr : Int) :
    Except GErr Json × ApiSt :=
  if h : mr ≤ 0 then (.error .outOfRetries, st)
  else
    match loginPhase env st renew with
    | (.error e, st2) => (.error e, st2)
    | (.ok _, st2) =>
        match env.queryResp st2.queryCount with
        | .exn => (.error .transport, recordQuery st2)
        | .json msg data =>
            match data with
            | some d =>
                if msg = "success" then (.ok d, recordQuery st2)
                else getDataAux env (recordQuery st2) true (mr - 1)
            | none => getDataAux env (recordQuery st2) true (mr - 1)
termination_by mr.toNat
decreasing_by all_goals omega

/-- SemsApi.getData: the catch-all except clause logs the exception and
falls off the end, returning None. -/
def getData (env : Env) (st : ApiSt) (renew : Bool) (mr : Int) :
    Option Json × ApiSt :=
  match getDataAux env st renew mr with
  | (.ok d, st2) => (some d, st2)
  | (.error _, st2) => (none, st2)

end SemsApi

/-- A fresh SemsApi: no token held, no calls made. -/
def initSt : ApiSt := ⟨none, 0, 0, []⟩

/-- A remote that rejects every login and breaks every data POST. -/
def env0 : Env := ⟨fun _ => none, fun _ => .exn⟩

/-- A remote that always logs in and always answers the data POST with a
failure envelope (the stale-token shape). -/
def envRetry : Env := ⟨fun _ => some "api", fun _ => .json "error" none⟩

/-- A document carrying only info.time: every METRICS path is missing. -/
def c1doc : Json := .obj [("info", .obj [("time", .str "03/14/2024 08:05:00")])]

/-- A document whose powerflow block reports grid 100(W) with every
companion status field set to -1. -/
def c2doc : Json := .obj
  [("info", .obj [("time", .str "03/14/2024 08:05:00")]),
   ("powerflow", .obj
     [("pv", .str "0(W)"), ("pvStatus", .int 1),
      ("load", .str "0(W)"), ("loadStatus", .int (-1)),
      ("grid", .str "100(W)"), ("gridStatus", .int (-1))])]

/-- A document whose powerflow.pv is a truthy integer, not a string. -/
def c3doc : Json := .obj
  [("info", .obj [("time", .str "03/14/2024 08:05:00")]),
   ("powerflow", .obj [("pv", .int 3503)])]

/-- A document whose powerflow.pv is a truthy string without the (W)
unit suffix. -/
def c3doc2 : Json := .obj
  [("info", .obj [("time", .str "03/14/2024 08:05:00")]),
   ("powerflow", .obj [("pv", .str "abc")])]

/-- A document with grid magnitude 100(W) and loadStatus -1, the shape of
the grid-direction property. -/
def c7doc : Json := .obj
  [("info", .obj [("time", .str "03/14/2024 08:05:00")]),
   ("powerflow", .obj [("grid", .str "100(W)"), ("loadStatus", .int (-1))])]

/-- As c7doc but with loadStatus +1. -/
def c7docPos : Json := .obj
  [("info", .obj [("time", .str "03/14/2024 08:05:00")]),
   ("powerflow", .obj [("grid", .str "100(W)"), ("loadStatus", .int 1)])]

/-- A document whose powerflow.pv magnitude 5(W) is below the noise
threshold, with a direction companion present. -/
def c8doc : Json := .obj
  [("info", .obj [("time", .str "03/14/2024 08:05:00")]),
   ("powerflow", .obj [("pv", .str "5(W)"), ("loadStatus", .int (-1))])]

/-- One captured line as PollLoop.save_json writes it: a raw document in
JSON on a single line. -/
def c5line : String := "\x7b\"info\": \x7b\"time\": \"03/14/2024 08:05:00\"\x7d\x7d"

/-! Lemmas about the record operations. -/

theorem getKey_setKey_self (out : Record) (k : String) (v : Json) :
    getKey (setKey out k v) k = some v := by
  induction out with
  | nil => simp [setKey, getKey]
  | cons kv rest ih =>
      obtain ⟨k2, v2⟩ := kv
      by_cases h : k2 = k <;> simp [setKey, getKey, h, ih]

theorem getKey_setKey_ne (out : Record) (k : String) (v : Json) (k2 : String)
    (h : k2 ≠ k) : getKey (setKey out k v) k2 = getKey out k2 := by
  have h2 : ¬ k = k2 := fun he => h he.symm
  induction out with
  | nil => simp [setKey, getKey, h2]
  | cons kv rest ih =>
      obtain ⟨k3, v3⟩ := kv
      by_cases h3 : k3 = k
      · subst h3
        simp [setKey, getKey, h2]
      · simp [setKey, getKey, h3, ih]

theorem getKey_delKey_self (out : Record) (k : String) :
    getKey (delKey out k) k = none := by
  induction out with
  | nil => simp [delKey, getKey]
  | cons kv rest ih =>
      obtain ⟨k2, v2⟩ := kv
      by_cases h : k2 = k <;> simp [delKey, getKey, h, ih]

theorem getKey_delKey_ne (out : Record) (k k2 : String) (h : k2 ≠ k) :
    getKey (delKey out k) k2 = getKey out k2 := by
  induction out with
  | nil => simp [delKey, getKey]
  | cons kv rest ih =>
      obtain ⟨k3, v3⟩ := kv
      by_cases h3 : k3 = k
      · subst h3
        have h4 : ¬ k3 = k2 := fun he => h he.symm
        simp [delKey, getKey, h4, ih]
      · simp [delKey, getKey, h3, ih]

/-! Frame lemmas: each per-key step touches only its own key, and the
final binding of the key is the step's net outcome. -/

theorem replayStep_frame (doc : Json) (k p : String) (out out2 : Record)
    (h : replayStep doc k p out = .ok out2) (k2 : String) (hne : k2 ≠ k) :
    getKey out2 k2 = getKey out k2 := by
  unfold replayStep at h
  cases hout : replayOut doc p with
  | error e => rw [hout] at h; cases h
  | ok ow =>
      rw [hout] at h
      cases ow with
      | some w => cases h; exact getKey_setKey_ne out k w k2 hne
      | none =>
          cases h
          rw [getKey_delKey_ne _ _ _ hne, getKey_setKey_ne _ _ _ _ hne]

theorem liveStep_frame (doc : Json) (k p : String) (out out2 : Record)
    (h : liveStep doc k p out = .ok out2) (k2 : String) (hne : k2 ≠ k) :
    getKey out2 k2 = getKey out k2 := by
  unfold liveStep at h
  cases hout : liveOut doc p with
  | error e => rw [hout] at h; cases h
  | ok w => rw [hout] at h; cases h; exact getKey_setKey_ne out k w k2 hne

theorem replayStep_getKey_self (doc : Json) (k p : String) (out out2 : Record)
    (ow : Option Json) (hout : replayOut doc p = .ok ow)
    (h : replayStep doc k p out = .ok out2) : getKey out2 k = ow := by
  unfold replayStep at h
  rw [hout] at h
  cases ow with
  | some w => cases h; exact getKey_setKey_self out k w
  | none => cases h; exact getKey_delKey_self _ k

theorem liveStep_getKey_self (doc : Json) (k p : String) (out out2 : Record)
    (w : Json) (hout : liveOut doc p = .ok w)
    (h : liveStep doc k p out = .ok out2) : getKey out2 k = some w := by
  unfold liveStep at h
  rw [hout] at h
  cases h
  exact getKey_setKey_self out k w

/-! Running the loop: the final value of a key is fixed by its own step. -/

theorem runSteps_frame (step : String → String → Record → Except PyErr Record)
    (Hf : ∀ k p out out2, step k p out = .ok out2 →
      ∀ k2, k2 ≠ k → getKey out2 k2 = getKey out k2) :
    ∀ (spec : List (String × String)) (out r : Record) (key : String),
      runSteps step spec out = .ok r → key ∉ spec.map Prod.fst →
      getKey r key = getKey out key := by
  intro spec
  induction spec with
  | nil =>
      intro out r key h _
      unfold runSteps at h
      cases h
      rfl
  | cons hd tl ih =>
      obtain ⟨k, p⟩ := hd
      intro out r key h hmem
      unfold runSteps at h
      simp only [List.map_cons, List.mem_cons, not_or] at hmem
      cases hstep : step k p out with
      | error e => rw [hstep] at h; cases h
      | ok out2 =>
          rw [hstep] at h
          rw [ih out2 r key h hmem.2]
          exact Hf k p out out2 hstep key hmem.1

theorem runSteps_getKey (step : String → String → Record → Except PyErr Record)
    (Hf : ∀ k p out out2, step k p out = .ok out2 →
      ∀ k2, k2 ≠ k → getKey out2 k2 = getKey out k2)
    (key path : String) (X : Option Json)
    (hstep : ∀ out out2, step key path out = .ok out2 → getKey out2 key = X) :
    ∀ (spec : List (String × String)), (spec.map Prod.fst).Nodup →
      (key, path) ∈ spec → ∀ (out r : Record),
      runSteps step spec out = .ok r → getKey r key = X := by
  intro spec
  induction spec with
  | nil => simp
  | cons hd tl ih =>
      obtain ⟨k, p⟩ := hd
      intro hnd hmem out r h
      rw [List.map_cons, List.nodup_cons] at hnd
      unfold runSteps at h
      cases hstep2 : step k p out with
      | error e => rw [hstep2] at h; cases h
      | ok out2 =>
          rw [hstep2] at h
          rcases List.mem_cons.1 hmem with heq | hmem2
          · injection heq with hk hp
            subst hk
            subst hp
            have hval : getKey out2 key = X := hstep out out2 hstep2
            rw [runSteps_frame step Hf tl out2 r key h hnd.1, hval]
          · exact ih hnd.2 hmem2 out2 r h

/-- The METRICS output-field names are pairwise distinct. -/
theorem metricsKeysNodup : (METRICS.map Prod.fst).Nodup := by decide

/-! Scenario lemmas about the net per-field outcomes. -/

theorem replayOut_nonpf (doc : Json) (p : String)
    (h : pyStartsWith p "powerflow" = false) :
    replayOut doc p = .ok (some (jsearch p doc)) := by
  unfold replayOut
  simp [h]

theorem liveOut_nonpf (doc : Json) (p : String)
    (h : pyStartsWith p "powerflow" = false) :
    liveOut doc p = .ok (jsearch p doc) := by
  unfold liveOut
  simp [h]

theorem replayOut_falsy (doc : Json) (p : String)
    (hp : pyStartsWith p "powerflow" = true)
    (hv : pyFalsy (jsearch p doc) = true) :
    replayOut doc p = .ok none := by
  unfold replayOut
  simp [hp, hv]

theorem replayOut_warn (doc : Json) (p s : String)
    (hp : pyStartsWith p "powerflow" = true)
    (hs : jsearch p doc = .str s) (hne : s ≠ "")
    (hw : pyEndsWith s "(W)" = false) :
    replayOut doc p = .ok none := by
  unfold replayOut
  rw [hs]
  simp [hp, pyFalsy, hne, hw, typeCheckOut]

theorem replayOut_noise (doc : Json) (p s : String) (q : PyF)
    (hp : pyStartsWith p "powerflow" = true)
    (hs : jsearch p doc = .str s) (hne : s ≠ "")
    (hw : pyEndsWith s "(W)" = true)
    (hq : pyFloat (pyDropRight s 3) = some q)
    (hlt : (pyTrunc q).natAbs < 10) :
    replayOut doc p = .ok (some (.int 0)) := by
  unfold replayOut
  rw [hs]
  simp [hp, pyFalsy, hne, hw, hq, hlt]

theorem replayOut_grid (doc : Json) (dir : Int)
    (hs : jsearch "powerflow.grid" doc = .str "100(W)")
    (hls : jsearch "powerflow.loadStatus" doc = .int dir) :
    replayOut doc "powerflow.grid" = .ok (some (.int (100 * dir))) := by
  unfold replayOut
  rw [hs, hls]
  rfl

/-! Decomposition of the two parse_data variants. -/

theorem SemsUtils_parse_data_parts (tz : Int) (doc : Json) (pr : Int × Record)
    (h : SemsUtils.parse_data tz doc = .ok pr) :
    timestampOf tz doc = .ok pr.1 ∧
    runSteps (replayStep doc) METRICS [] = .ok pr.2 := by
  unfold SemsUtils.parse_data at h
  cases ht : timestampOf tz doc with
  | error e => rw [ht] at h; cases h
  | ok t =>
      rw [ht] at h
      cases hr : runSteps (replayStep doc) METRICS [] with
      | error e => rw [hr] at h; cases h
      | ok out => rw [hr] at h; cases h; exact ⟨rfl, rfl⟩

theorem SemsProcessor_parse_data_parts (spec : List (String × String)) (tz : Int)
    (doc : Json) (pr : Int × Record)
    (h : SemsProcessor.parse_data spec tz doc = .ok pr) :
    runSteps (liveStep doc) spec [] = .ok pr.2 ∧
    timestampOf tz doc = .ok pr.1 := by
  unfold SemsProcessor.parse_data at h
  cases hr : runSteps (liveStep doc) spec [] with
  | error e => rw [hr] at h; cases h
  | ok out =>
      rw [hr] at h
      cases ht : timestampOf tz doc with
      | error e => rw [ht] at h; cases h
      | ok t => rw [ht] at h; cases h; exact ⟨rfl, rfl⟩

/-- C1, counterexample: on a document where energeStatisticsCharts is
absent, parse_data succeeds and its field map contains d_pv_sum bound to
null, so extraction does not omit keys whose path resolves to nothing. -/
theorem claim_C1_cex :
    SemsUtils.parse_data 0 c1doc = .ok (unwrapOr (SemsUtils.parse_data 0 c1doc)) ∧
    getKey (unwrapOr (SemsUtils.parse_data 0 c1doc)).2 "d_pv_sum" = some Json.null := by
  exact ⟨rfl, rfl⟩

/-- C1 (amended): the omission behaviour is restricted to powerflow
entries.  For a MetricSpec entry whose path starts with powerflow, a
falsy (in particular missing) value leads to the key being omitted; for
any other entry an unresolved path leaves the key present and bound to
null. -/
theorem claim_C1 (doc : Json) (tz : Int) (key path : String)
    (pr : Int × Record) (hmem : (key, path) ∈ METRICS)
    (h : SemsUtils.parse_data tz doc = .ok pr) :
    (pyStartsWith path "powerflow" = true → pyFalsy (jsearch path doc) = true →
      getKey pr.2 key = none) ∧
    (pyStartsWith path "powerflow" = false → jsearch path doc = Json.null →
      getKey pr.2 key = some Json.null) := by
  have hrun := (SemsUtils_parse_data_parts tz doc pr h).2
  constructor
  · intro hp hv
    exact runSteps_getKey (replayStep doc) (replayStep_frame doc) key path none
      (fun out out2 hst => replayStep_getKey_self doc key path out out2 none
        (replayOut_falsy doc path hp hv) hst)
      METRICS metricsKeysNodup hmem [] pr.2 hrun
  · intro hp hnull
    refine runSteps_getKey (replayStep doc) (replayStep_frame doc) key path
      (some Json.null) (fun out out2 hst => ?_) METRICS metricsKeysNodup hmem
      [] pr.2 hrun
    have hout := replayOut_nonpf doc path hp
    rw [hnull] at hout
    exact replayStep_getKey_self doc key path out out2 (some Json.null) hout hst

/-- C1 witness: instance of the amended claim on c1doc for the powerflow
entry p_pv (omitted) and the plain entry d_pv_use (kept as null). -/
theorem claim_C1_witness :
    getKey (unwrapOr (SemsUtils.parse_data 0 c1doc)).2 "p_pv" = none ∧
    getKey (unwrapOr (SemsUtils.parse_data 0 c1doc)).2 "d_pv_use" = some Json.null := by
  constructor
  · exact (claim_C1 c1doc 0 "p_pv" "powerflow.pv"
      (unwrapOr (SemsUtils.parse_data 0 c1doc)) (by decide) rfl).1
      (by decide) (by decide)
  · exact (claim_C1 c1doc 0 "d_pv_use" "energeStatisticsCharts.selfUseOfPv"
      (unwrapOr (SemsUtils.parse_data 0 c1doc)) (by decide) rfl).2
      (by decide) rfl

/-- C2, counterexample: on c2doc both paths succeed, but the live path
normalizes p_grid to the float 100.0 (it multiplies by the negated
gridStatus) while the replay path yields the int -100 (loadStatus as
is), so the two NormalizedRecords differ. -/
theorem claim_C2_cex :
    SemsProcessor.parse_data METRICS 0 c2doc =
      .ok (unwrapOr (SemsProcessor.parse_data METRICS 0 c2doc)) ∧
    SemsUtils.parse_data 0 c2doc = .ok (unwrapOr (SemsUtils.parse_data 0 c2doc)) ∧
    getKey (unwrapOr (SemsProcessor.parse_data METRICS 0 c2doc)).2 "p_grid" =
      some (Json.float ⟨100, 0⟩) ∧
    getKey (unwrapOr (SemsUtils.parse_data 0 c2doc)).2 "p_grid" =
      some (Json.int (-100)) ∧
    Json.float ⟨100, 0⟩ ≠ Json.int (-100) := by
  exact ⟨rfl, rfl, rfl, rfl, fun h => Json.noConfusion h⟩

/-- C2 (amended): when both the live path and the replay path succeed on
the same document they agree on the derived timestamp and on every
non-powerflow field; powerflow fields can differ (inverted path++Status
float in the live path against as-is loadStatus int with noise clamp in
the replay path). -/
theorem claim_C2 (doc : Json) (tz : Int) (pr1 pr2 : Int × Record)
    (h1 : SemsProcessor.parse_data METRICS tz doc = .ok pr1)
    (h2 : SemsUtils.parse_data tz doc = .ok pr2) :
    pr1.1 = pr2.1 ∧
    ∀ key path, (key, path) ∈ METRICS → pyStartsWith path "powerflow" = false →
      getKey pr1.2 key = getKey pr2.2 key := by
  obtain ⟨hr1, ht1⟩ := SemsProcessor_parse_data_parts METRICS tz doc pr1 h1
  obtain ⟨ht2, hr2⟩ := SemsUtils_parse_data_parts tz doc pr2 h2
  constructor
  · rw [ht1] at ht2
    injection ht2
  · intro key path hmem hp
    have e1 : getKey pr1.2 key = some (jsearch path doc) :=
      runSteps_getKey (liveStep doc) (liveStep_frame doc) key path
        (some (jsearch path doc))
        (fun out out2 hst => liveStep_getKey_self doc key path out out2 _
          (liveOut_nonpf doc path hp) hst)
        METRICS metricsKeysNodup hmem [] pr1.2 hr1
    have e2 : getKey pr2.2 key = some (jsearch path doc) :=
      runSteps_getKey (replayStep doc) (replayStep_frame doc) key path
        (some (jsearch path doc))
        (fun out out2 hst => replayStep_getKey_self doc key path out out2 _
          (replayOut_nonpf doc path hp) hst)
        METRICS metricsKeysNodup hmem [] pr2.2 hr2
    rw [e1, e2]

/-- C2 witness: instance of the amended claim on c2doc, for the
timestamp and the d_pv_sum field. -/
theorem claim_C2_witness :
    (unwrapOr (SemsProcessor.parse_data METRICS 0 c2doc)).1 =
      (unwrapOr (SemsUtils.parse_data 0 c2doc)).1 ∧
    getKey (unwrapOr (SemsProcessor.parse_data METRICS 0 c2doc)).2 "d_pv_sum" =
      getKey (unwrapOr (SemsUtils.parse_data 0 c2doc)).2 "d_pv_sum" := by
  have h := claim_C2 c2doc 0 (unwrapOr (SemsProcessor.parse_data METRICS 0 c2doc))
    (unwrapOr (SemsUtils.parse_data 0 c2doc)) rfl rfl
  exact ⟨h.1, h.2 "d_pv_sum" "energeStatisticsCharts.sum" (by decide) (by decide)⟩

/-- C3, counterexample: a document whose powerflow.pv is the truthy
integer 3503 makes parse_data raise AttributeError (int has no
endswith), so extraction does not degrade every structural error to a
per-field warning. -/
theorem claim_C3_cex : SemsUtils.parse_data 0 c3doc = .error .attributeError := by
  exact rfl

/-- C3 (amended): only the final type check degrades to a per-field
warning with the field omitted: a truthy powerflow string without the
(W) suffix is dropped and extraction of the remaining fields completes.
Structural errors before that check (truthy non-string values,
unparsable magnitudes, a missing loadStatus companion for grid, and a
missing or malformed info.time) raise and abort parse_data. -/
theorem claim_C3 (doc : Json) (tz : Int) (key path : String)
    (pr : Int × Record) (s : String) (hmem : (key, path) ∈ METRICS)
    (hp : pyStartsWith path "powerflow" = true)
    (hs : jsearch path doc = .str s) (hne : s ≠ "")
    (hw : pyEndsWith s "(W)" = false)
    (h : SemsUtils.parse_data tz doc = .ok pr) :
    getKey pr.2 key = none := by
  have hrun := (SemsUtils_parse_data_parts tz doc pr h).2
  exact runSteps_getKey (replayStep doc) (replayStep_frame doc) key path none
    (fun out out2 hst => replayStep_getKey_self doc key path out out2 none
      (replayOut_warn doc path s hp hs hne hw) hst)
    METRICS metricsKeysNodup hmem [] pr.2 hrun

/-- C3 witness: on c3doc2 the truthy non-(W) string "abc" under
powerflow.pv is warned about and omitted while parse_data succeeds. -/
theorem claim_C3_witness :
    getKey (unwrapOr (SemsUtils.parse_data 0 c3doc2)).2 "p_pv" = none := by
  exact claim_C3 c3doc2 0 "p_pv" "powerflow.pv"
    (unwrapOr (SemsUtils.parse_data 0 c3doc2)) "abc" (by decide) (by decide)
    rfl (by decide) (by decide) rfl

/-- C7, counterexample: on c2doc the companion powerflow.loadStatus is
-1 and the extracted grid magnitude is 100, yet the live path
(SemsProcessor.parse_data, cited by the claim) normalizes p_grid to
+100.0 instead of -100: it multiplies by the negated gridStatus, not by
loadStatus as-is. -/
theorem claim_C7_cex :
    jsearch "powerflow.loadStatus" c2doc = Json.int (-1) ∧
    SemsProcessor.parse_data METRICS 0 c2doc =
      .ok (unwrapOr (SemsProcessor.parse_data METRICS 0 c2doc)) ∧
    getKey (unwrapOr (SemsProcessor.parse_data METRICS 0 c2doc)).2 "p_grid" =
      some (Json.float ⟨100, 0⟩) ∧
    Json.float ⟨100, 0⟩ ≠ Json.int (-100) := by
  exact ⟨rfl, rfl, rfl, fun h => Json.noConfusion h⟩

/-- C7 (amended): in the replay path (sems_utils.parse_data) the grid
field with magnitude 100 reproduces the companion loadStatus sign as-is:
the normalized value is 100 * dir for any integer direction dir, hence
-100 for dir = -1 and +100 for dir = +1.  The live path does not satisfy
the claim, as the counterexample shows. -/
theorem claim_C7 (doc : Json) (tz : Int) (pr : Int × Record) (dir : Int)
    (hs : jsearch "powerflow.grid" doc = .str "100(W)")
    (hls : jsearch "powerflow.loadStatus" doc = .int dir)
    (h : SemsUtils.parse_data tz doc = .ok pr) :
    getKey pr.2 "p_grid" = some (.int (100 * dir)) := by
  have hrun := (SemsUtils_parse_data_parts tz doc pr h).2
  exact runSteps_getKey (replayStep doc) (replayStep_frame doc) "p_grid"
    "powerflow.grid" (some (.int (100 * dir)))
    (fun out out2 hst => replayStep_getKey_self doc _ _ out out2 _
      (replayOut_grid doc dir hs hls) hst)
    METRICS metricsKeysNodup (by decide) [] pr.2 hrun

/-- C7 witness: the amended claim instantiated at loadStatus -1 and at
loadStatus +1. -/
theorem claim_C7_witness :
    getKey (unwrapOr (SemsUtils.parse_data 0 c7doc)).2 "p_grid" =
      some (Json.int (-100)) ∧
    getKey (unwrapOr (SemsUtils.parse_data 0 c7docPos)).2 "p_grid" =
      some (Json.int 100) := by
  constructor
  · have h := claim_C7 c7doc 0 (unwrapOr (SemsUtils.parse_data 0 c7doc)) (-1)
      rfl rfl rfl
    simpa using h
  · have h := claim_C7 c7docPos 0 (unwrapOr (SemsUtils.parse_data 0 c7docPos)) 1
      rfl rfl rfl
    simpa using h

/-- C8: a powerflow field whose raw value is a (W) string with truncated
magnitude of absolute value below 10 normalizes to exactly the int 0,
for every document (hence regardless of any companion direction field:
the direction lookup is skipped by the noise clamp). -/
theorem claim_C8 (doc : Json) (tz : Int) (key path : String)
    (pr : Int × Record) (s : String) (q : PyF)
    (hmem : (key, path) ∈ METRICS)
    (hp : pyStartsWith path "powerflow" = true)
    (hs : jsearch path doc = .str s) (hne : s ≠ "")
    (hw : pyEndsWith s "(W)" = true)
    (hq : pyFloat (pyDropRight s 3) = some q)
    (hlt : (pyTrunc q).natAbs < 10)
    (h : SemsUtils.parse_data tz doc = .ok pr) :
    getKey pr.2 key = some (.int 0) := by
  have hrun := (SemsUtils_parse_data_parts tz doc pr h).2
  exact runSteps_getKey (replayStep doc) (replayStep_frame doc) key path
    (some (.int 0))
    (fun out out2 hst => replayStep_getKey_self doc key path out out2 _
      (replayOut_noise doc path s q hp hs hne hw hq hlt) hst)
    METRICS metricsKeysNodup hmem [] pr.2 hrun

/-- C8 witness: on c8doc the value "5(W)" under powerflow.pv normalizes
to 0 although loadStatus is -1. -/
theorem claim_C8_witness :
    getKey (unwrapOr (SemsUtils.parse_data 0 c8doc)).2 "p_pv" =
      some (Json.int 0) := by
  exact claim_C8 c8doc 0 "p_pv" "powerflow.pv"
    (unwrapOr (SemsUtils.parse_data 0 c8doc)) "5(W)" ⟨5, 0⟩ (by decide)
    (by decide) rfl (by decide) (by decide) (by decide) (by decide) rfl

/-- C9: for every document whose info.time is the local naive string
03/14/2024 08:05:00 and every local utc offset tz, parse_data returns as
its timestamp exactly the integer epoch-seconds value of that local
wall-clock time (1710403500 is the epoch value of the civil date-time
read as UTC).  parse_data takes no clock input, so the timestamp is
derived from the document alone. -/
theorem claim_C9 (tz : Int) (doc : Json) (pr : Int × Record)
    (ht : jsearch "info.time" doc = .str "03/14/2024 08:05:00")
    (h : SemsUtils.parse_data tz doc = .ok pr) :
    pr.1 = 1710403500 - tz := by
  have hts := (SemsUtils_parse_data_parts tz doc pr h).1
  unfold timestampOf at hts
  rw [ht] at hts
  dsimp only at hts
  rw [show strptimeMDY "03/14/2024 08:05:00" = some ⟨2024, 3, 14, 8, 5, 0⟩
    from by decide] at hts
  dsimp only at hts
  rw [show civilSecs ⟨2024, 3, 14, 8, 5, 0⟩ = 1710403500 from by decide] at hts
  injection hts with h2
  exact h2.symm

/-- C9 witness: the timestamp of c1doc at utc offset 0. -/
theorem claim_C9_witness :
    (unwrapOr (SemsUtils.parse_data 0 c1doc)).1 = 1710403500 := by
  have h := claim_C9 0 c1doc (unwrapOr (SemsUtils.parse_data 0 c1doc)) rfl rfl
  simpa using h

/-! The retry loop of SemsApi.getData. -/

theorem loginPhase_queryCount (env : Env) (st : ApiSt) (renew : Bool) :
    (loginPhase env st renew).2.queryCount = st.queryCount := by
  unfold loginPhase
  split
  · cases env.loginResult st.loginCount <;> simp [recordLogin]
  · rfl

theorem getDataAux_queryBound (n : Nat) :
    ∀ (env : Env) (st : ApiSt) (renew : Bool) (mr : Int), mr.toNat ≤ n →
    (SemsApi.getDataAux env st renew mr).2.queryCount ≤ st.queryCount + mr.toNat := by
  induction n with
  | zero =>
      intro env st renew mr hn
      have h0 : mr ≤ 0 := by omega
      unfold SemsApi.getDataAux
      simp [h0]
  | succ n ih =>
      intro env st renew mr hn
      unfold SemsApi.getDataAux
      by_cases h0 : mr ≤ 0
      · simp [h0]
      · rw [dif_neg h0]
        cases hl : loginPhase env st renew with
        | mk res st2 =>
            have hq2 : st2.queryCount = st.queryCount := by
              have hlq := loginPhase_queryCount env st renew
              rw [hl] at hlq
              exact hlq
            cases res with
            | error e =>
                dsimp only
                omega
            | ok tok =>
                dsimp only
                cases hqr : env.queryResp st2.queryCount with
                | exn =>
                    dsimp only [recordQuery]
                    omega
                | json msg data =>
                    cases data with
                    | none =>
                        dsimp only
                        have hrec := ih env (recordQuery st2) true (mr - 1) (by omega)
                        simp only [recordQuery] at hrec ⊢
                        omega
                    | some d =>
                        dsimp only
                        by_cases hmsg : msg = "success"
                        · rw [if_pos hmsg]
                          dsimp only [recordQuery]
                          omega
                        · rw [if_neg hmsg]
                          have hrec := ih env (recordQuery st2) true (mr - 1) (by omega)
                          simp only [recordQuery] at hrec ⊢
                          omega

theorem getDataAux_retryEq (env : Env) (st : ApiSt) (renew : Bool) (mr : Int)
    (tok : String) (st2 : ApiSt) (msg : String) (data : Option Json)
    (hmr : ¬ mr ≤ 0) (hl : loginPhase env st renew = (.ok tok, st2))
    (hq : env.queryResp st2.queryCount = .json msg data)
    (hfail : msg ≠ "success" ∨ data = none) :
    SemsApi.getDataAux env st renew mr =
      SemsApi.getDataAux env (recordQuery st2) true (mr - 1) := by
  conv_lhs => rw [SemsApi.getDataAux]
  rw [dif_neg hmr, hl]
  dsimp only
  rw [hq]
  cases data with
  | none => rfl
  | some d =>
      rcases hfail with hmsg | hnone
      · simp [hmsg]
      · cases hnone

/-- C4: with maxTokenRetries at most 0 the try-block body of getData
fails at once with the OutOfRetries raise and leaves the state (hence
the trace of network calls) untouched, so no login request and no data
request are issued; the catch-all handler turns this into a None return. -/
theorem claim_C4 (env : Env) (st : ApiSt) (renew : Bool) (mr : Int)
    (h : mr ≤ 0) :
    SemsApi.getDataAux env st renew mr = (.error .outOfRetries, st) ∧
    SemsApi.getData env st renew mr = (none, st) := by
  have h1 : SemsApi.getDataAux env st renew mr = (.error .outOfRetries, st) := by
    unfold SemsApi.getDataAux
    simp [h]
  refine ⟨h1, ?_⟩
  unfold SemsApi.getData
  rw [h1]

/-- C4 witness: a fresh client with zero retries returns None with an
empty network-call trace. -/
theorem claim_C4_witness :
    SemsApi.getData env0 initSt false 0 = (none, initSt) ∧ initSt.calls = [] := by
  exact ⟨(claim_C4 env0 initSt false 0 (by decide)).2, rfl⟩

/-- C6: the retry loop is bounded and always terminates: for every
environment, starting state and maxTokenRetries value, the whole call
issues at most maxTokenRetries data-query attempts (the queryCount of
the final state grows by at most max(maxTokenRetries, 0)); and the
stale-token condition (msg not the success marker, or null data payload)
makes getData recurse with a forced re-login and maxTokenRetries - 1. -/
theorem claim_C6 :
    (∀ (env : Env) (st : ApiSt) (renew : Bool) (mr : Int),
      (SemsApi.getDataAux env st renew mr).2.queryCount ≤
        st.queryCount + mr.toNat) ∧
    (∀ (env : Env) (st : ApiSt) (renew : Bool) (mr : Int) (tok : String)
      (st2 : ApiSt) (msg : String) (data : Option Json), ¬ mr ≤ 0 →
      loginPhase env st renew = (.ok tok, st2) →
      env.queryResp st2.queryCount = .json msg data →
      (msg ≠ "success" ∨ data = none) →
      SemsApi.getDataAux env st renew mr =
        SemsApi.getDataAux env (recordQuery st2) true (mr - 1)) := by
  exact ⟨fun env st renew mr =>
      getDataAux_queryBound mr.toNat env st renew mr le_rfl,
    getDataAux_retryEq⟩

/-- C6 witness: against a remote that always answers with a failure
envelope, a call with 2 retries makes at most 2 query attempts and its
first failing attempt steps to the recursive call with 1 retry and a
forced re-login. -/
theorem claim_C6_witness :
    (SemsApi.getDataAux envRetry initSt false 2).2.queryCount ≤
      initSt.queryCount + (2 : Int).toNat ∧
    SemsApi.getDataAux envRetry initSt false 2 =
      SemsApi.getDataAux envRetry
        (recordQuery (recordLogin initSt (some "api"))) true 1 := by
  constructor
  · exact claim_C6.1 envRetry initSt false 2
  · exact claim_C6.2 envRetry initSt false 2 "api"
      (recordLogin initSt (some "api")) "error" none (by decide) rfl rfl
      (Or.inr rfl)

/-- C10: getData never propagates an exception: whenever the try-block
body fails internally, with any error (login failure, transport or
malformed-response exception, or OutOfRetries), the catch-all handler
logs it and getData returns None. -/
theorem claim_C10 (env : Env) (st : ApiSt) (renew : Bool) (mr : Int)
    (e : GErr) (st2 : ApiSt)
    (h : SemsApi.getDataAux env st renew mr = (.error e, st2)) :
    SemsApi.getData env st renew mr = (none, st2) := by
  unfold SemsApi.getData
  rw [h]

/-- C10 witness: against a remote that rejects the login, getData
returns None after the failed login attempt. -/
theorem claim_C10_witness :
    SemsApi.getData env0 initSt false 1 = (none, recordLogin initSt none) := by
  exact claim_C10 env0 initSt false 1 .loginFailed (recordLogin initSt none)
    (by unfold SemsApi.getDataAux; rfl)

/-- C5, counterexample: replaying 3 lines whose second is blank returns
a processed count of 1, not 2, and only the first line reaches the sink:
json.loads("") raises, and since the try block of load_data wraps the
whole loop, the exception ends the replay before line 3 is read (it is
caught and logged, so there is no crash). -/
theorem claim_C5_cex :
    (BackupLoader.load_data false "m" 0 [c5line, "", c5line] 0 []).1 = 1 ∧
    (BackupLoader.load_data false "m" 0 [c5line, "", c5line] 0 []).2.length = 1 ∧
    (1 : Nat) ≠ 2 := by
  exact ⟨rfl, rfl, by decide⟩

/-- C5 (amended): a per-line exception during BatchReplay is caught and
logged but terminates the replay: the call returns the count and sink
writes accumulated before the failing line, and the subsequent lines are
not processed.  A blank line is such an exception, since json.loads on
it raises a ValueError; with 3 lines whose second is blank the processed
count is therefore 1, with no sink write and no crash for the blank
line. -/
theorem claim_C5 :
    loads "" = .error .valueError ∧
    (∀ (dry : Bool) (meas : String) (tz : Int) (line : String)
      (rest : List String) (n : Nat) (w : List PointM) (e : PyErr),
      loads line = .error e →
      BackupLoader.load_data dry meas tz (line :: rest) n w = (n, w)) ∧
    (∀ (dry : Bool) (meas : String) (tz : Int) (line : String)
      (rest : List String) (n : Nat) (w : List PointM) (sems : Json) (e : PyErr),
      loads line = .ok sems → pyFalsy sems = false →
      SemsUtils.parse_data tz sems = .error e →
      BackupLoader.load_data dry meas tz (line :: rest) n w = (n, w)) := by
  refine ⟨rfl, ?_, ?_⟩
  · intro dry meas tz line rest n w e h
    unfold BackupLoader.load_data
    rw [h]
  · intro dry meas tz line rest n w sems e h1 h2 h3
    unfold BackupLoader.load_data
    rw [h1]
    dsimp only
    simp only [h2, Bool.false_eq_true, if_false]
    rw [h3]

/-- C5 witness: a blank line aborts the replay at once, keeping the
already-accumulated count and writes and skipping the rest. -/
theorem claim_C5_witness :
    BackupLoader.load_data false "m" 0 ("" :: [c5line]) 5 [] = (5, []) := by
  exact claim_C5.2.1 false "m" 0 "" [c5line] 5 [] .valueError rfl
